import Mathlib

/-!
Verification of `run_inference.py` (BitNet inference launcher).

The script is a CLI wrapper: it parses arguments (argparse), resolves the
path of an external `llama-cli` executable, assembles its command line,
streams the child's combined stdout/stderr line by line, and scrapes
performance metrics (tokens/sec, ms/token) out of that text.

Shallow embedding notes:
* Python `str` values are modelled by `String` (a list of characters);
  the handful of `str` operations the script uses (`split`, `strip`,
  `startswith`, `in`) are re-implemented below on the character list so
  that every definition is a structurally recursive, kernel-computable
  function.
* Python `float(...)` is modelled as an exact decimal parser into `ℚ`
  (`parsePyFloat`); the script only ever parses short decimal fragments
  such as "12.37", for which the IEEE double holds the decimal value the
  user sees printed back.  Exponent/inf/nan spellings of `float` input
  are not modelled; no scraped fragment uses them.
* Wall-clock timestamps (`time.time()`) are not modelled; the printed
  blocks are modelled as structured `OutEvent`s carrying the data the
  script computes deterministically (counters, exit codes, metrics).
-/

namespace BitNetRun

/-- Whitespace predicate used by Python `str.strip()` (ASCII subset;
the script never strips non-ASCII whitespace). -/
def pyIsSpace (c : Char) : Bool :=
  c = ' ' || c = '\t' || c = '\n' || c = '\r' || c = '\x0b' || c = '\x0c'

/-- Python `s.strip()`: drop leading and trailing whitespace. -/
def pyStrip (s : String) : String :=
  String.mk (((s.data.dropWhile pyIsSpace).reverse.dropWhile pyIsSpace).reverse)

/-- Python `s.startswith(pre)`. -/
def pyStartsWith (s pre : String) : Bool :=
  pre.data.isPrefixOf s.data

/-- Does `pat` occur as a contiguous segment of the character list?
Backs Python's `pat in s` substring test. -/
def hasSegment (pat : List Char) : List Char → Bool
  | [] => pat.isPrefixOf []
  | c :: rest => pat.isPrefixOf (c :: rest) || hasSegment pat rest

/-- Python `pat in s` (substring containment; the script only uses
non-empty literal patterns). -/
def pyContains (s pat : String) : Bool :=
  hasSegment pat.data s.data

/-- Fuel-driven worker for `pySplit`: scan the characters, cutting at each
occurrence of the (non-empty) separator, accumulating the current piece in
reverse.  The fuel is at least `length + 1`, which the scan can never
exhaust, making the recursion structural. -/
def splitSegAux (sep : List Char) : Nat → List Char → List Char → List (List Char)
  | _, [], acc => [acc.reverse]
  | 0, s, acc => [acc.reverse ++ s]
  | fuel + 1, c :: rest, acc =>
    if sep.isPrefixOf (c :: rest) then
      acc.reverse :: splitSegAux sep fuel (List.drop sep.length (c :: rest)) []
    else
      splitSegAux sep fuel rest (c :: acc)

/-- Python `s.split(sep)` for a non-empty separator string (Python raises
on an empty separator; the script only splits on literal non-empty
separators, so that branch is inert here). -/
def pySplit (s sep : String) : List String :=
  if sep.data.isEmpty then [s]
  else (splitSegAux sep.data (s.data.length + 1) s.data []).map String.mk

/-- Decimal digits to a natural number (callers check `Char.isDigit`). -/
def digitsToNat (cs : List Char) : Nat :=
  cs.foldl (fun a c => a * 10 + (c.toNat - 48)) 0

/-- A successfully parsed decimal literal: sign, integer part, fractional
digits and their count.  The denoted rational is `DecNum.toRat`. -/
structure DecNum where
  neg : Bool
  ip : Nat
  fp : Nat
  fpLen : Nat
deriving DecidableEq, Repr

/-- The rational number denoted by a parsed decimal literal. -/
def DecNum.toRat (d : DecNum) : ℚ :=
  (if d.neg then -1 else 1) * ((d.ip : ℚ) + (d.fp : ℚ) / (10 : ℚ) ^ d.fpLen)

/-- Syntactic part of Python `float(s)` on the decimal spellings the
script scrapes: optional surrounding whitespace, optional sign, digits
with at most one decimal point and at least one digit.  Returns `none`
exactly when Python raises `ValueError` on such inputs (exponent, `inf`,
`nan` and underscore spellings are not modelled; no scraped fragment uses
them). -/
def parsePyDec (s : String) : Option DecNum :=
  let t := pyStrip s
  let (neg, body) :=
    match t.data with
    | '-' :: rest => (true, rest)
    | '+' :: rest => (false, rest)
    | cs => (false, cs)
  match (splitSegAux ['.'] (body.length + 1) body []).map String.mk with
  | [ip] =>
    if ip.data.length != 0 && ip.data.all Char.isDigit then
      some ⟨neg, digitsToNat ip.data, 0, 0⟩
    else none
  | [ip, fp] =>
    if (ip.data.length + fp.data.length != 0)
        && ip.data.all Char.isDigit && fp.data.all Char.isDigit then
      some ⟨neg, digitsToNat ip.data, digitsToNat fp.data, fp.data.length⟩
    else none
  | _ => none

/-- Python `float(s)` as an exact rational (see `parsePyDec`). -/
def parsePyFloat (s : String) : Option ℚ :=
  (parsePyDec s).map DecNum.toRat

/-- Python `int(s)` in base 10: optional surrounding whitespace, optional
sign, non-empty digit run (underscore spellings not modelled). -/
def parsePyInt (s : String) : Option Int :=
  let t := pyStrip s
  let (neg, body) :=
    match t.data with
    | '-' :: rest => (true, rest)
    | '+' :: rest => (false, rest)
    | cs => (false, cs)
  if body.length != 0 && body.all Char.isDigit then
    some ((if neg then -1 else 1) * (digitsToNat body : Int))
  else none

/-- The `performance_metrics` dictionary of `run_command` (lines 78-107):
up to four optional entries, absent until a line sets them. -/
structure PerfMetrics where
  prompt_eval_speed : Option ℚ := none
  prompt_eval_ms_per_token : Option ℚ := none
  gen_speed : Option ℚ := none
  gen_ms_per_token : Option ℚ := none
deriving DecidableEq, Repr

/-- Lines 82 and 96: `parts = line.split('=')[1].strip() if '=' in line
else ""`. -/
def eqParts (line : String) : String :=
  if pyContains line "=" then pyStrip ((pySplit line "=").getD 1 "") else ""

/-- Lines 86 and 100: the tokens-per-second fragment,
`parts.split('tokens per second')[0].split(',')[-1].strip()`. -/
def tpsFrag (parts : String) : String :=
  pyStrip ((pySplit ((pySplit parts "tokens per second").headD "") ",").getLastD "")

/-- Lines 90 and 104: the ms-per-token fragment,
`parts.split('ms per token')[0].split('(')[-1].strip()`. -/
def mptFrag (parts : String) : String :=
  pyStrip ((pySplit ((pySplit parts "ms per token").headD "") "(").getLastD "")

/-- The `try` block of lines 84-93: parse the two fragments and store
them under the prompt-eval keys.  The `except: pass` becomes explicit
`Option` matches: if the first `float` fails nothing is recorded, if the
second fails only the first assignment survives — exactly the partial
update the Python dictionary receives before the exception aborts the
block. -/
def promptTry (m : PerfMetrics) (parts : String) : PerfMetrics :=
  match parsePyFloat (tpsFrag parts) with
  | none => m
  | some v =>
    match parsePyFloat (mptFrag parts) with
    | none => { m with prompt_eval_speed := some v }
    | some w => { m with prompt_eval_speed := some v,
                         prompt_eval_ms_per_token := some w }

/-- The `try` block of lines 98-107, storing under the generation
keys (same partial-update semantics as `promptTry`). -/
def genTry (m : PerfMetrics) (parts : String) : PerfMetrics :=
  match parsePyFloat (tpsFrag parts) with
  | none => m
  | some v =>
    match parsePyFloat (mptFrag parts) with
    | none => { m with gen_speed := some v }
    | some w => { m with gen_speed := some v, gen_ms_per_token := some w }

/-- One iteration of the metric-extraction loop of `run_command`
(lines 79-107): dispatch on the "prompt eval time" and "eval time"
markers, check the delimiters, and run the corresponding `try`
block. -/
def stepMetrics (m : PerfMetrics) (line : String) : PerfMetrics :=
  if pyContains line "prompt eval time" then
    if pyContains (eqParts line) "ms per token"
        && pyContains (eqParts line) "tokens per second" then
      promptTry m (eqParts line)
    else m
  else if pyContains line "eval time" && !pyContains line "prompt eval" then
    if pyContains (eqParts line) "ms per token"
        && pyContains (eqParts line) "tokens per second" then
      genTry m (eqParts line)
    else m
  else m

/-- The whole extraction pass over the collected `output_lines`
(lines 79-107). -/
def extractMetrics (lines : List String) : PerfMetrics :=
  lines.foldl stepMetrics {}

/-- Whether the report of lines 113-116 raises `KeyError`: each printed
pair is guarded only by its first key (`'prompt_eval_speed' in
performance_metrics`, `'gen_speed' in performance_metrics`) but its
f-string reads both keys of the pair, so a dictionary holding a speed
without its ms-per-token partner crashes the report. -/
def reportKeyError (m : PerfMetrics) : Bool :=
  (m.prompt_eval_speed.isSome && m.prompt_eval_ms_per_token.isNone)
  || (m.gen_speed.isSome && m.gen_ms_per_token.isNone)

/-- The sample prompt-eval line of the spec (§8). -/
def promptEvalLine : String :=
  "prompt eval time = 161.62 ms / 2 tokens ( 80.81 ms per token, 12.37 tokens per second)"

/-- The sample generation-eval line of the spec (§8). -/
def genEvalLine : String :=
  "  eval time = 2136.86 ms / 19 runs ( 112.47 ms per token, 8.89 tokens per second)"

/-- One observable print action of the script.  Wall-clock durations that
the real blocks interpolate (`time.time()` differences) are not modelled;
each event carries the deterministic data its block prints. -/
inductive OutEvent where
  /-- Line 12: the start banner. -/
  | startBanner : OutEvent
  /-- Line 29: the echoed child output line. -/
  | echo : String → OutEvent
  /-- Lines 54-62: the per-response metrics block of conversation mode,
  carrying the response counter value and the thread count it prints. -/
  | responseBlock : Nat → Int → OutEvent
  /-- Line 70: the error message mentioning the child's exit code. -/
  | errorExit : Int → OutEvent
  /-- Lines 110-121: the non-conversation speed-metrics block, carrying
  the extracted metrics and the thread count it prints. -/
  | speedMetricsBlock : PerfMetrics → Int → OutEvent
  /-- The Python traceback of the uncaught `KeyError` raised inside the
  report of lines 113-116 when a metrics pair is partially parsed (the
  header and any report lines already printed before the crash are
  elided into this event). -/
  | keyErrorTraceback : OutEvent
  /-- Lines 124-132: the conversation summary, carrying the response
  counter and the thread count it prints. -/
  | conversationSummary : Nat → Int → OutEvent
  /-- Lines 140-151: the "(Interrupted)" performance summary, carrying
  the thread count it prints. -/
  | interruptedSummary : Int → OutEvent
  /-- Line 177: the "Ctrl+C pressed, exiting..." message of
  `signal_handler`. -/
  | ctrlCMessage : OutEvent
deriving DecidableEq, Repr

/-- The mutable state of the read loop of `run_command` (lines 19-24),
plus the transcript of print events so far. -/
structure LoopState where
  output_lines : List String
  model_response_started : Bool
  model_response_lines : List String
  response_count : Nat
  in_assistant_response : Bool
  events : List OutEvent
deriving Repr

/-- The loop state right before the first line is read (lines 12-24). -/
def initLoopState : LoopState :=
  { output_lines := [], model_response_started := false, model_response_lines := [],
    response_count := 0, in_assistant_response := false, events := [OutEvent.startBanner] }

/-- Lines 32-37 of the read loop, applied to the state `st1` that already
holds the echoed line: track the start of generation (`generate: n_ctx`)
and collect the model-response lines. -/
def trackStep (line : String) (st1 : LoopState) : LoopState :=
  if pyContains line "generate: n_ctx" then
    { st1 with model_response_started := true }
  else if st1.model_response_started && !pyContains line "llama_perf_"
      && pyStrip line != "" && !pyStartsWith line "sampler" then
    if !(pyContains line "load time" || pyContains line "prompt eval"
        || pyContains line "eval time" || pyContains line "total time"
        || pyContains line "sampling time") then
      { st1 with model_response_lines := st1.model_response_lines ++ [line] }
    else st1
  else st1

/-- Lines 27-37 of the read loop: record and echo the line (lines 28-29),
then run `trackStep`. -/
def trackPhase (st : LoopState) (line : String) : LoopState :=
  trackStep line { st with output_lines := st.output_lines ++ [line],
                           events := st.events ++ [OutEvent.echo line] }

/-- Lines 40-64 of the read loop: the conversation-mode turn tracker.  A
stripped line starting with the response marker while no response is open
opens one; a subsequent non-empty line that starts with neither the
marker nor "System:" closes it, bumping the counter and emitting one
per-response metrics block. -/
def convPhase (threads : Int) (st : LoopState) (line : String) : LoopState :=
  if pyStartsWith (pyStrip line) "> " && !st.in_assistant_response then
    { st with in_assistant_response := true }
  else if st.in_assistant_response && pyStrip line != ""
      && !pyStartsWith (pyStrip line) "> "
      && !pyStartsWith (pyStrip line) "System:" then
    { st with response_count := st.response_count + 1,
              events := st.events
                ++ [OutEvent.responseBlock (st.response_count + 1) threads],
              in_assistant_response := false }
  else st

/-- One iteration of `for line in process.stdout` (lines 27-64):
`trackPhase` always runs, `convPhase` only in conversation mode. -/
def processLine (is_conversation : Bool) (threads : Int) (st : LoopState)
    (line : String) : LoopState :=
  if is_conversation then convPhase threads (trackPhase st line) line
  else trackPhase st line

/-- One execution of `run_command`, as seen from outside: the child's
output lines, its exit code, whether and when a SIGINT arrives, and the
run configuration.  `interruptAt = some k` means the interrupt is
delivered after `k` lines have been consumed (`k ≥ lines.length` places
it during `process.wait()`); `sigintHandlerInstalled` records whether
`__main__`'s `signal.signal(SIGINT, signal_handler)` registration
(line 181) is active, as it always is when the script runs. -/
structure RunInput where
  lines : List String
  returncode : Int
  interruptAt : Option Nat
  sigintHandlerInstalled : Bool
  threads : Int
  is_conversation : Bool

/-- The observable outcome of one execution: the process exit status of
the utility, the transcript of print events, the final response counter,
and the metrics the final report carries (`none` when no speed-metrics
block is printed). -/
structure RunOutcome where
  exitCode : Nat
  events : List OutEvent
  responseCount : Nat
  reportedMetrics : Option PerfMetrics
deriving Repr

/-- `run_command` (lines 9-152) together with the SIGINT disposition of
`__main__` (lines 176-181).  An interrupt delivered while the handler is
installed runs `signal_handler`: "Ctrl+C pressed, exiting..." and
`sys.exit(0)` (the `SystemExit` it raises is not caught by the
`except KeyboardInterrupt` clause, so nothing further is printed).
Without the handler the same interrupt raises `KeyboardInterrupt`, which
lands in the handler of lines 139-152: the "(Interrupted)" summary and
`sys.exit(0)`.  A non-zero child exit code hits lines 69-71: the error
message and `sys.exit(1)`.  Otherwise lines 77-132 print the
non-conversation speed-metrics block or the conversation summary — but
when a metrics pair was only partially parsed, the report of
lines 113-116 raises an uncaught `KeyError` (see `reportKeyError`),
which no `except` clause catches: the interpreter prints a traceback
and the process dies with exit status 1. -/
def runCommand (inp : RunInput) : RunOutcome :=
  match inp.interruptAt with
  | some k =>
    let st := (inp.lines.take k).foldl
      (processLine inp.is_conversation inp.threads) initLoopState
    if inp.sigintHandlerInstalled then
      { exitCode := 0, events := st.events ++ [OutEvent.ctrlCMessage],
        responseCount := st.response_count, reportedMetrics := none }
    else
      { exitCode := 0,
        events := st.events ++ [OutEvent.interruptedSummary inp.threads],
        responseCount := st.response_count, reportedMetrics := none }
  | none =>
    let st := inp.lines.foldl
      (processLine inp.is_conversation inp.threads) initLoopState
    if inp.returncode ≠ 0 then
      { exitCode := 1, events := st.events ++ [OutEvent.errorExit inp.returncode],
        responseCount := st.response_count, reportedMetrics := none }
    else if !inp.is_conversation then
      if reportKeyError (extractMetrics st.output_lines) then
        { exitCode := 1, events := st.events ++ [OutEvent.keyErrorTraceback],
          responseCount := st.response_count, reportedMetrics := none }
      else
        { exitCode := 0,
          events := st.events
            ++ [OutEvent.speedMetricsBlock (extractMetrics st.output_lines) inp.threads],
          responseCount := st.response_count,
          reportedMetrics := some (extractMetrics st.output_lines) }
    else
      { exitCode := 0,
        events := st.events
          ++ [OutEvent.conversationSummary st.response_count inp.threads],
        responseCount := st.response_count, reportedMetrics := none }

/-- Path concatenation for `os.path.join` on the components the script
joins.  The POSIX separator is used; on Windows `os.path.join` uses a
backslash, but the script's path structure (which component sequence is
preferred, and the fallback) is separator-independent. -/
def joinPath (parts : List String) : String :=
  String.intercalate "/" parts

/-- Resolution of the `llama-cli` executable path (lines 155-161),
abstracted over the platform test (`platform.system() == "Windows"`) and
the filesystem probe (`os.path.exists`). -/
def resolveMainPath (isWindows : Bool) (pathExists : String → Bool) : String :=
  if isWindows then
    let main_path := joinPath ["build", "bin", "Release", "llama-cli.exe"]
    if !pathExists main_path then joinPath ["build", "bin", "llama-cli"]
    else main_path
  else joinPath ["build", "bin", "llama-cli"]

/-- Python `str(n)` on an `int`: Lean's decimal rendering of `Int`
coincides with it (including the leading minus sign). -/
def strOfInt (n : Int) : String := toString n

/-- Python `str(x)` on the `float` temperature.  Python prints the
shortest decimal that round-trips the IEEE double; for the
finite-decimal values the CLI accepts this is the exact decimal
expansion, modelled here by long division (integer part, a point, then
the fractional digits; a trailing `.0` for integral values, as Python
prints; non-terminating expansions are cut after 17 digits, more than
any double needs). -/
def fracDigits (den : Nat) : Nat → Nat → List Char
  | _, 0 => []
  | 0, _ => []
  | fuel + 1, r =>
    Char.ofNat (48 + r * 10 / den) :: fracDigits den fuel (r * 10 % den)

/-- See `fracDigits`; renders a rational as Python renders the
corresponding double. -/
def strOfPyFloat (q : ℚ) : String :=
  let sign := if q < 0 then "-" else ""
  let n := q.num.natAbs
  let ip := n / q.den
  let r := n % q.den
  if r = 0 then sign ++ toString ip ++ ".0"
  else sign ++ toString ip ++ "." ++ String.mk (fracDigits q.den 17 r)

/-- The parsed argument namespace of lines 184-192, with each
`add_argument` default.  `prompt` has no default: argparse marks it
required.  The temperature default 0.8 is written as the normalized
rational 4/5 in constructor form so that it stays kernel-computable. -/
structure ParsedArgs where
  model : String := "models/bitnet_b1_58-3B/ggml-model-i2_s.gguf"
  n_predict : Int := 128
  prompt : Option String := none
  threads : Int := 2
  ctx_size : Int := 2048
  temperature : ℚ := ⟨4, 5, by decide, by decide⟩
  conversation : Bool := false
deriving Repr

/-- The value-taking options of the parser (lines 184-189). -/
inductive ArgFlag where
  | model | npredict | prompt | threads | ctxSize | temperature
deriving DecidableEq, Repr

/-- Which value-taking option a token names (lines 184-189). -/
def flagOf (t : String) : Option ArgFlag :=
  if t = "-m" || t = "--model" then some ArgFlag.model
  else if t = "-n" || t = "--n-predict" then some ArgFlag.npredict
  else if t = "-p" || t = "--prompt" then some ArgFlag.prompt
  else if t = "-t" || t = "--threads" then some ArgFlag.threads
  else if t = "-c" || t = "--ctx-size" then some ArgFlag.ctxSize
  else if t = "-temp" || t = "--temperature" then some ArgFlag.temperature
  else none

/-- Store an option's value, applying the `type=` conversion of its
`add_argument` call (str, int or float); a failing conversion is
argparse's `invalid ... value` fatal error. -/
def applyArgValue (f : ArgFlag) (a : ParsedArgs) (v : String) :
    Except String ParsedArgs :=
  match f with
  | ArgFlag.model => Except.ok { a with model := v }
  | ArgFlag.prompt => Except.ok { a with prompt := some v }
  | ArgFlag.npredict =>
    match parsePyInt v with
    | some n => Except.ok { a with n_predict := n }
    | none => Except.error ("argument -n/--n-predict: invalid int value: " ++ v)
  | ArgFlag.threads =>
    match parsePyInt v with
    | some n => Except.ok { a with threads := n }
    | none => Except.error ("argument -t/--threads: invalid int value: " ++ v)
  | ArgFlag.ctxSize =>
    match parsePyInt v with
    | some n => Except.ok { a with ctx_size := n }
    | none => Except.error ("argument -c/--ctx-size: invalid int value: " ++ v)
  | ArgFlag.temperature =>
    match parsePyFloat v with
    | some q => Except.ok { a with temperature := q }
    | none =>
      Except.error ("argument -temp/--temperature: invalid float value: " ++ v)

/-- The argparse scan over the token list: either no option is pending
and the next token must be an option name (`store_true` options consume
no value), or an option is pending and the next token is its value.
Modelled subset: exact option tokens each followed by a separate value
token; argparse's `--opt=value` and unambiguous-prefix spellings are not
exercised by any claim. -/
def parseArgsGo : Option ArgFlag → ParsedArgs → List String →
    Except String ParsedArgs
  | none, a, [] => Except.ok a
  | some _, _, [] => Except.error "expected one argument"
  | none, a, t :: rest =>
    match flagOf t with
    | some f => parseArgsGo (some f) a rest
    | none =>
      if t = "-cnv" || t = "--conversation" then
        parseArgsGo none { a with conversation := true } rest
      else Except.error ("unrecognized arguments: " ++ t)
  | some f, a, v :: rest =>
    match applyArgValue f a v with
    | Except.ok a2 => parseArgsGo none a2 rest
    | Except.error e => Except.error e

/-- `parser.parse_args()` (line 192): scan the tokens, then enforce the
`required=True` marking of the prompt option; a parse error aborts the
program before `run_inference` ever builds or launches a child
command. -/
def parseArgs (argv : List String) : Except String ParsedArgs :=
  match parseArgsGo none {} argv with
  | Except.ok a =>
    match a.prompt with
    | none => Except.error "the following arguments are required: -p/--prompt"
    | some _ => Except.ok a
  | Except.error e => Except.error e

/-- The child command list assembled by `run_inference` (lines 162-173):
the executable path, the fixed flag sequence with the argument values
(ints and the float temperature rendered by `str`), and `-cnv` appended
exactly when conversation mode is on.  `prompt` is always present by the
time `run_inference` runs (the parse enforces it); `getD` supplies the
unreachable default. -/
def buildCommand (main_path : String) (a : ParsedArgs) : List String :=
  [main_path,
    "-m", a.model,
    "-n", strOfInt a.n_predict,
    "-t", strOfInt a.threads,
    "-p", a.prompt.getD "",
    "-ngl", "0",
    "-c", strOfInt a.ctx_size,
    "--temp", strOfPyFloat a.temperature]
  ++ (if a.conversation then ["-cnv"] else [])

/-- Argument parsing composed with command assembly (lines 183-193 and
162-173): the command that would be handed to `subprocess.Popen`, or the
argparse error that stops the program first. -/
def mainCommand (isWindows : Bool) (pathExists : String → Bool)
    (argv : List String) : Except String (List String) :=
  (parseArgs argv).map (fun a => buildCommand (resolveMainPath isWindows pathExists) a)

/-- Recognizer for the per-response metrics block among print events. -/
def isResponseBlock : OutEvent → Bool
  | OutEvent.responseBlock _ _ => true
  | _ => false

/-- Number of per-response metrics blocks in a transcript. -/
def countBlocks (es : List OutEvent) : Nat :=
  (es.filter isResponseBlock).length

/-- Recognizer for the non-conversation speed-metrics block. -/
def isSpeedBlock : OutEvent → Bool
  | OutEvent.speedMetricsBlock _ _ => true
  | _ => false

/-- Recognizer for the "(Interrupted)" summary block. -/
def isInterruptedSummary : OutEvent → Bool
  | OutEvent.interruptedSummary _ => true
  | _ => false

/-- A second well-formed prompt-eval line with different numbers, later
in the stream than the spec's sample line. -/
def promptEvalLine2 : String :=
  "prompt eval time = 4.00 ms / 1 tokens ( 2.00 ms per token, 0.50 tokens per second)"

/-- A generation-eval line whose tokens-per-second fragment parses
("2.0") but whose ms-per-token fragment ("abc") does not: processing it
leaves the dictionary with the speed key set and the ms key absent. -/
def genPartialLine : String :=
  "eval time = x ( abc ms per token, 2.0 tokens per second)"

/-- A non-conversation run whose stream holds the spec's sample
prompt-eval line followed by a later prompt-eval line with different
numbers. -/
def c1CexInput : RunInput :=
  { lines := [promptEvalLine, promptEvalLine2], returncode := 0,
    interruptAt := none, sigintHandlerInstalled := true, threads := 2,
    is_conversation := false }

/-- A non-conversation run whose stream is exactly the spec's sample
prompt-eval line. -/
def c1WitnessInput : RunInput :=
  { lines := [promptEvalLine], returncode := 0, interruptAt := none,
    sigintHandlerInstalled := true, threads := 2, is_conversation := false }

/-- Arguments with a prompt and conversation mode on, rest defaulted. -/
def c3WitnessArgs : ParsedArgs :=
  { prompt := some "hello", conversation := true }

/-- A run whose child exits with code 2. -/
def c4WitnessInput : RunInput :=
  { lines := ["boom"], returncode := 2, interruptAt := none,
    sigintHandlerInstalled := true, threads := 2, is_conversation := false }

/-- A run interrupted after one line, with `__main__`'s SIGINT handler
installed as it always is when the script runs. -/
def c5Input : RunInput :=
  { lines := ["token stream"], returncode := 0, interruptAt := some 1,
    sigintHandlerInstalled := true, threads := 2, is_conversation := false }

/-- A successful child run (exit code 0) whose only output line is the
partially-parseable generation-eval line. -/
def c6CrashInput : RunInput :=
  { lines := [genPartialLine], returncode := 0, interruptAt := none,
    sigintHandlerInstalled := true, threads := 2, is_conversation := false }

/-- A conversation-mode run with two marker/terminator pairs. -/
def c7WitnessInput : RunInput :=
  { lines := ["> hi", "ok", "> again", "done"], returncode := 0,
    interruptAt := none, sigintHandlerInstalled := true, threads := 2,
    is_conversation := true }

/-- A conversation-mode run whose stream carries a parseable prompt-eval
timing line. -/
def c10WitnessInput : RunInput :=
  { lines := [promptEvalLine], returncode := 0, interruptAt := none,
    sigintHandlerInstalled := true, threads := 2, is_conversation := true }

theorem countBlocks_append (a b : List OutEvent) :
    countBlocks (a ++ b) = countBlocks a + countBlocks b := by
  simp [countBlocks, List.filter_append]

/-- `trackStep` only does generation bookkeeping: the conversation
fields, the transcript and the collected output are untouched. -/
theorem trackStep_spec (line : String) (st1 : LoopState) :
    (trackStep line st1).in_assistant_response = st1.in_assistant_response ∧
    (trackStep line st1).response_count = st1.response_count ∧
    (trackStep line st1).events = st1.events ∧
    (trackStep line st1).output_lines = st1.output_lines := by
  unfold trackStep
  split
  · exact ⟨rfl, rfl, rfl, rfl⟩
  · split
    · split
      · exact ⟨rfl, rfl, rfl, rfl⟩
      · exact ⟨rfl, rfl, rfl, rfl⟩
    · exact ⟨rfl, rfl, rfl, rfl⟩

/-- `trackPhase` only echoes and does bookkeeping: the conversation
fields and the transcript shape are fixed functions of the input
state. -/
theorem trackPhase_spec (st : LoopState) (line : String) :
    (trackPhase st line).in_assistant_response = st.in_assistant_response ∧
    (trackPhase st line).response_count = st.response_count ∧
    (trackPhase st line).events = st.events ++ [OutEvent.echo line] ∧
    (trackPhase st line).output_lines = st.output_lines ++ [line] := by
  unfold trackPhase
  exact trackStep_spec line _

/-- The opening transition of the turn tracker (lines 42-45). -/
theorem convPhase_start (t : Int) (st : LoopState) (line : String)
    (h1 : st.in_assistant_response = false)
    (h2 : pyStartsWith (pyStrip line) "> " = true) :
    convPhase t st line = { st with in_assistant_response := true } := by
  unfold convPhase
  simp [h1, h2]

/-- The closing transition of the turn tracker (lines 47-64). -/
theorem convPhase_end (t : Int) (st : LoopState) (line : String)
    (h1 : st.in_assistant_response = true)
    (h2 : pyStrip line ≠ "")
    (h3 : pyStartsWith (pyStrip line) "> " = false)
    (h4 : pyStartsWith (pyStrip line) "System:" = false) :
    convPhase t st line =
      { st with response_count := st.response_count + 1,
                events := st.events
                  ++ [OutEvent.responseBlock (st.response_count + 1) t],
                in_assistant_response := false } := by
  unfold convPhase
  simp [h1, h2, h3, h4]

/-- A conversation-mode loop iteration on a marker line while idle. -/
theorem processLine_conv_start (t : Int) (st : LoopState) (line : String)
    (h1 : st.in_assistant_response = false)
    (h2 : pyStartsWith (pyStrip line) "> " = true) :
    (processLine true t st line).in_assistant_response = true ∧
    (processLine true t st line).response_count = st.response_count ∧
    (processLine true t st line).events = st.events ++ [OutEvent.echo line] := by
  obtain ⟨ha, hb, hc, _⟩ := trackPhase_spec st line
  unfold processLine
  simp only [if_pos rfl]
  rw [convPhase_start t (trackPhase st line) line (ha.trans h1) h2]
  exact ⟨rfl, hb, hc⟩

/-- A conversation-mode loop iteration on a terminating line while a
response is open. -/
theorem processLine_conv_end (t : Int) (st : LoopState) (line : String)
    (h1 : st.in_assistant_response = true)
    (h2 : pyStrip line ≠ "")
    (h3 : pyStartsWith (pyStrip line) "> " = false)
    (h4 : pyStartsWith (pyStrip line) "System:" = false) :
    (processLine true t st line).in_assistant_response = false ∧
    (processLine true t st line).response_count = st.response_count + 1 ∧
    (processLine true t st line).events = st.events ++ [OutEvent.echo line]
      ++ [OutEvent.responseBlock (st.response_count + 1) t] := by
  obtain ⟨ha, hb, hc, _⟩ := trackPhase_spec st line
  unfold processLine
  simp only [if_pos rfl]
  rw [convPhase_end t (trackPhase st line) line (ha.trans h1) h2 h3 h4]
  refine ⟨rfl, ?_, ?_⟩
  · simp [hb]
  · simp [hb, hc]

/-- `convPhase` never touches the collected output lines. -/
theorem convPhase_output_lines (t : Int) (st : LoopState) (line : String) :
    (convPhase t st line).output_lines = st.output_lines := by
  unfold convPhase
  split
  · rfl
  · split
    · rfl
    · rfl

/-- `convPhase` never prints a speed-metrics block. -/
theorem convPhase_no_speedBlock (t : Int) (st : LoopState) (line : String)
    (h : st.events.all (fun e => !isSpeedBlock e) = true) :
    (convPhase t st line).events.all (fun e => !isSpeedBlock e) = true := by
  unfold convPhase
  split
  · exact h
  · split
    · simp only [List.all_append, h, Bool.true_and]
      rfl
    · exact h

/-- A loop iteration appends exactly the consumed line to
`output_lines`. -/
theorem processLine_output_lines (c : Bool) (t : Int) (st : LoopState)
    (line : String) :
    (processLine c t st line).output_lines = st.output_lines ++ [line] := by
  obtain ⟨_, _, _, hd⟩ := trackPhase_spec st line
  unfold processLine
  split
  · rw [convPhase_output_lines]
    exact hd
  · exact hd

/-- The read loop consumes exactly the stream: `output_lines` ends up
holding every line in order. -/
theorem foldl_processLine_output_lines (c : Bool) (t : Int)
    (lines : List String) (st : LoopState) :
    (lines.foldl (processLine c t) st).output_lines
      = st.output_lines ++ lines := by
  induction lines generalizing st with
  | nil => simp
  | cons y ys ih =>
    simp only [List.foldl_cons]
    rw [ih, processLine_output_lines]
    simp

/-- A loop iteration never prints a speed-metrics block. -/
theorem processLine_no_speedBlock (c : Bool) (t : Int) (st : LoopState)
    (line : String)
    (h : st.events.all (fun e => !isSpeedBlock e) = true) :
    (processLine c t st line).events.all (fun e => !isSpeedBlock e) = true := by
  obtain ⟨_, _, hc', _⟩ := trackPhase_spec st line
  have htrack : (trackPhase st line).events.all (fun e => !isSpeedBlock e) = true := by
    rw [hc']
    simp only [List.all_append, h, Bool.true_and]
    rfl
  unfold processLine
  split
  · exact convPhase_no_speedBlock t (trackPhase st line) line htrack
  · exact htrack

/-- The whole read loop never prints a speed-metrics block. -/
theorem foldl_processLine_no_speedBlock (c : Bool) (t : Int)
    (lines : List String) (st : LoopState)
    (h : st.events.all (fun e => !isSpeedBlock e) = true) :
    (lines.foldl (processLine c t) st).events.all
      (fun e => !isSpeedBlock e) = true := by
  induction lines generalizing st with
  | nil => exact h
  | cons y ys ih =>
    simp only [List.foldl_cons]
    exact ih _ (processLine_no_speedBlock c t st y h)

/-- The prompt-eval `try` block never touches the generation entries. -/
theorem promptTry_preserves_gen (m : PerfMetrics) (parts : String) :
    (promptTry m parts).gen_speed = m.gen_speed ∧
    (promptTry m parts).gen_ms_per_token = m.gen_ms_per_token := by
  unfold promptTry
  split
  · exact ⟨rfl, rfl⟩
  · split
    · exact ⟨rfl, rfl⟩
    · exact ⟨rfl, rfl⟩

/-- The generation `try` block never touches the prompt-eval entries. -/
theorem genTry_preserves_prompt (m : PerfMetrics) (parts : String) :
    (genTry m parts).prompt_eval_speed = m.prompt_eval_speed ∧
    (genTry m parts).prompt_eval_ms_per_token = m.prompt_eval_ms_per_token := by
  unfold genTry
  split
  · exact ⟨rfl, rfl⟩
  · split
    · exact ⟨rfl, rfl⟩
    · exact ⟨rfl, rfl⟩

/-- A line without the "prompt eval time" marker leaves the prompt-eval
entries of the dictionary untouched. -/
theorem stepMetrics_preserves_prompt (m : PerfMetrics) (line : String)
    (h : pyContains line "prompt eval time" = false) :
    (stepMetrics m line).prompt_eval_speed = m.prompt_eval_speed ∧
    (stepMetrics m line).prompt_eval_ms_per_token = m.prompt_eval_ms_per_token := by
  unfold stepMetrics
  split
  · next hc => rw [h] at hc; exact absurd hc (by decide)
  · split
    · split
      · exact genTry_preserves_prompt m (eqParts line)
      · exact ⟨rfl, rfl⟩
    · exact ⟨rfl, rfl⟩

/-- A line carrying the "prompt eval" label never touches the
generation entries of the dictionary. -/
theorem stepMetrics_preserves_gen (m : PerfMetrics) (line : String)
    (h : pyContains line "prompt eval" = true) :
    (stepMetrics m line).gen_speed = m.gen_speed ∧
    (stepMetrics m line).gen_ms_per_token = m.gen_ms_per_token := by
  unfold stepMetrics
  split
  · split
    · exact promptTry_preserves_gen m (eqParts line)
    · exact ⟨rfl, rfl⟩
  · split
    · next hc => rw [h] at hc; simp at hc
    · exact ⟨rfl, rfl⟩

/-- Extraction over a tail without the "prompt eval time" marker keeps
the prompt-eval entries of the accumulated dictionary. -/
theorem foldl_stepMetrics_preserves_prompt (l : List String)
    (h : ∀ y ∈ l, pyContains y "prompt eval time" = false) (m : PerfMetrics) :
    (l.foldl stepMetrics m).prompt_eval_speed = m.prompt_eval_speed ∧
    (l.foldl stepMetrics m).prompt_eval_ms_per_token
      = m.prompt_eval_ms_per_token := by
  induction l generalizing m with
  | nil => exact ⟨rfl, rfl⟩
  | cons y ys ih =>
    have hy : pyContains y "prompt eval time" = false := h y (by simp)
    have hstep := stepMetrics_preserves_prompt m y hy
    have hys := ih (fun z hz => h z (by simp [hz])) (stepMetrics m y)
    simp only [List.foldl_cons]
    exact ⟨hys.1.trans hstep.1, hys.2.trans hstep.2⟩

/-- Processing the sample prompt-eval line installs exactly the two
prompt-eval entries, whatever the dictionary held before. -/
theorem stepMetrics_promptEvalLine (m : PerfMetrics) :
    stepMetrics m promptEvalLine =
      { m with prompt_eval_speed := some (DecNum.toRat ⟨false, 12, 37, 2⟩),
               prompt_eval_ms_per_token := some (DecNum.toRat ⟨false, 80, 81, 2⟩) } := rfl

/-- Processing the sample generation-eval line installs exactly the two
generation entries, whatever the dictionary held before. -/
theorem stepMetrics_genEvalLine (m : PerfMetrics) :
    stepMetrics m genEvalLine =
      { m with gen_speed := some (DecNum.toRat ⟨false, 8, 89, 2⟩),
               gen_ms_per_token := some (DecNum.toRat ⟨false, 112, 47, 2⟩) } := rfl

/-- The rational values of the sample decimals, in the display form of
the spec. -/
theorem sampleDecValues :
    DecNum.toRat ⟨false, 12, 37, 2⟩ = 1237/100 ∧
    DecNum.toRat ⟨false, 80, 81, 2⟩ = 8081/100 ∧
    DecNum.toRat ⟨false, 8, 89, 2⟩ = 889/100 ∧
    DecNum.toRat ⟨false, 112, 47, 2⟩ = 11247/100 := by
  refine ⟨?_, ?_, ?_, ?_⟩ <;> norm_num [DecNum.toRat]

theorem countBlocks_echo (l : String) :
    countBlocks [OutEvent.echo l] = 0 := rfl

theorem countBlocks_respBlock (n : Nat) (t : Int) :
    countBlocks [OutEvent.responseBlock n t] = 1 := rfl

theorem countBlocks_convSummary (n : Nat) (t : Int) :
    countBlocks [OutEvent.conversationSummary n t] = 0 := rfl

theorem countBlocks_init : countBlocks initLoopState.events = 0 := rfl

/-- Only the two prompt spellings name the prompt option. -/
theorem flagOf_prompt (t : String) (h : flagOf t = some ArgFlag.prompt) :
    t = "-p" ∨ t = "--prompt" := by
  unfold flagOf at h
  split at h
  · simp at h
  · split at h
    · simp at h
    · split at h
      · next hc => simpa using hc
      · split at h
        · simp at h
        · split at h
          · simp at h
          · split at h
            · simp at h
            · simp at h

/-- Storing any option other than the prompt leaves the prompt value
unchanged. -/
theorem applyArgValue_preserves_prompt (f : ArgFlag) (a : ParsedArgs)
    (v : String) (a2 : ParsedArgs) (hf : f ≠ ArgFlag.prompt)
    (h : applyArgValue f a v = Except.ok a2) : a2.prompt = a.prompt := by
  cases f with
  | model => cases h; rfl
  | prompt => exact absurd rfl hf
  | npredict =>
    simp only [applyArgValue] at h
    split at h
    · cases h; rfl
    · cases h
  | threads =>
    simp only [applyArgValue] at h
    split at h
    · cases h; rfl
    · cases h
  | ctxSize =>
    simp only [applyArgValue] at h
    split at h
    · cases h; rfl
    · cases h
  | temperature =>
    simp only [applyArgValue] at h
    split at h
    · cases h; rfl
    · cases h

/-- The argparse scan never invents a prompt: without a prompt token in
the remaining argument list (and none pending), a successful scan keeps
the prompt it started with. -/
theorem parseArgsGo_prompt_invariant (argv : List String) :
    ∀ (pend : Option ArgFlag) (a a2 : ParsedArgs),
      pend ≠ some ArgFlag.prompt → "-p" ∉ argv → "--prompt" ∉ argv →
      parseArgsGo pend a argv = Except.ok a2 → a2.prompt = a.prompt := by
  induction argv with
  | nil =>
    intro pend a a2 hp _ _ hok
    cases pend with
    | none =>
      simp only [parseArgsGo] at hok
      cases hok
      rfl
    | some f =>
      simp only [parseArgsGo] at hok
      cases hok
  | cons t rest ih =>
    intro pend a a2 hp h1 h2 hok
    simp only [List.mem_cons, not_or] at h1 h2
    obtain ⟨h1t, h1r⟩ := h1
    obtain ⟨h2t, h2r⟩ := h2
    cases pend with
    | some f =>
      have hfp : f ≠ ArgFlag.prompt := fun he => hp (by rw [he])
      simp only [parseArgsGo] at hok
      cases hav : applyArgValue f a t with
      | ok a3 =>
        simp only [hav] at hok
        have hpp := applyArgValue_preserves_prompt f a t a3 hfp hav
        exact (ih none a3 a2 (by simp) h1r h2r hok).trans hpp
      | error e =>
        simp only [hav] at hok
        cases hok
    | none =>
      simp only [parseArgsGo] at hok
      cases hf : flagOf t with
      | some f =>
        simp only [hf] at hok
        have hfp : f ≠ ArgFlag.prompt := by
          intro he
          rcases flagOf_prompt t (he ▸ hf) with hcase | hcase
          · exact h1t hcase.symm
          · exact h2t hcase.symm
        exact ih (some f) a a2 (by simpa using hfp) h1r h2r hok
      | none =>
        simp only [hf] at hok
        split at hok
        · exact ih none { a with conversation := true } a2 (by simp) h1r h2r hok
        · cases hok

/-- C3: for every valid parameter set, the assembled child command line
is exactly the resolved executable path followed by
`-m <model> -n <count> -t <threads> -p <prompt> -ngl 0 -c <ctx>
--temp <temp>` in that order, with `-cnv` appended if and only if
conversation mode is enabled, and each value equal to the supplied
parameter (numeric values rendered via string conversion). -/
theorem c3_command_assembly (p : String) (a : ParsedArgs) :
    buildCommand p a =
      [p, "-m", a.model, "-n", strOfInt a.n_predict, "-t", strOfInt a.threads,
        "-p", a.prompt.getD "", "-ngl", "0", "-c", strOfInt a.ctx_size,
        "--temp", strOfPyFloat a.temperature]
      ++ (if a.conversation then ["-cnv"] else []) ∧
    (a.conversation = true → buildCommand p a =
      [p, "-m", a.model, "-n", strOfInt a.n_predict, "-t", strOfInt a.threads,
        "-p", a.prompt.getD "", "-ngl", "0", "-c", strOfInt a.ctx_size,
        "--temp", strOfPyFloat a.temperature, "-cnv"]) ∧
    (a.conversation = false → buildCommand p a =
      [p, "-m", a.model, "-n", strOfInt a.n_predict, "-t", strOfInt a.threads,
        "-p", a.prompt.getD "", "-ngl", "0", "-c", strOfInt a.ctx_size,
        "--temp", strOfPyFloat a.temperature]) := by
  refine ⟨rfl, ?_, ?_⟩
  · intro h
    simp [buildCommand, h]
  · intro h
    simp [buildCommand, h]

/-- Witness for C3 at a concrete parameter set with conversation mode
on. -/
theorem c3_command_assembly_witness :
    buildCommand "build/bin/llama-cli" c3WitnessArgs =
      ["build/bin/llama-cli", "-m", "models/bitnet_b1_58-3B/ggml-model-i2_s.gguf",
        "-n", "128", "-t", "2", "-p", "hello", "-ngl", "0", "-c", "2048",
        "--temp", "0.8", "-cnv"] :=
  ((c3_command_assembly "build/bin/llama-cli" c3WitnessArgs).2.1 rfl).trans rfl

/-- C4: for every run in which the child process terminates with a
non-zero exit code, the utility prints an error message mentioning that
exit code and terminates with exit status 1. -/
theorem c4_nonzero_exit (inp : RunInput) (hi : inp.interruptAt = none)
    (hr : inp.returncode ≠ 0) :
    (runCommand inp).exitCode = 1 ∧
    OutEvent.errorExit inp.returncode ∈ (runCommand inp).events := by
  simp only [runCommand, hi]
  rw [if_pos hr]
  exact ⟨rfl, by simp⟩

/-- Witness for C4: a child exiting with code 2 makes the utility exit
with status 1 and report the code. -/
theorem c4_nonzero_exit_witness :
    (runCommand c4WitnessInput).exitCode = 1 ∧
    OutEvent.errorExit 2 ∈ (runCommand c4WitnessInput).events :=
  c4_nonzero_exit c4WitnessInput rfl (by decide)

/-- C5 (supporting theorem for the code bug): with `__main__`'s SIGINT
handler installed — as it is on every run of the script — an interrupt
during output consumption ends the process with exit status 0 and the
"Ctrl+C pressed, exiting..." message, and no "(Interrupted)" summary
block is ever printed; the summary block of the
`except KeyboardInterrupt` clause appears (still with exit status 0)
only when `run_command` is driven without that handler. -/
theorem c5_handler_preempts_interrupted_summary :
    (runCommand c5Input).exitCode = 0 ∧
    OutEvent.ctrlCMessage ∈ (runCommand c5Input).events ∧
    (runCommand c5Input).events.all (fun e => !isInterruptedSummary e) = true ∧
    (runCommand { c5Input with sigintHandlerInstalled := false }).exitCode = 0 ∧
    OutEvent.interruptedSummary 2
      ∈ (runCommand { c5Input with sigintHandlerInstalled := false }).events := by
  refine ⟨rfl, by decide, by decide, rfl, by decide⟩

/-- C9: the inference executable path resolves platform-dependently: on
Windows the release binary path, falling back to the plain path when the
preferred one is absent, and the plain path on every other platform. -/
theorem c9_executable_resolution (pathExists : String → Bool) :
    (pathExists "build/bin/Release/llama-cli.exe" = true →
      resolveMainPath true pathExists = "build/bin/Release/llama-cli.exe") ∧
    (pathExists "build/bin/Release/llama-cli.exe" = false →
      resolveMainPath true pathExists = "build/bin/llama-cli") ∧
    resolveMainPath false pathExists = "build/bin/llama-cli" := by
  refine ⟨?_, ?_, rfl⟩
  · intro h
    show (if !pathExists "build/bin/Release/llama-cli.exe" then
        "build/bin/llama-cli" else "build/bin/Release/llama-cli.exe")
      = "build/bin/Release/llama-cli.exe"
    rw [h]
    rfl
  · intro h
    show (if !pathExists "build/bin/Release/llama-cli.exe" then
        "build/bin/llama-cli" else "build/bin/Release/llama-cli.exe")
      = "build/bin/llama-cli"
    rw [h]
    rfl

/-- Witness for C9 under both filesystem answers and both platforms. -/
theorem c9_executable_resolution_witness :
    resolveMainPath true (fun _ => true) = "build/bin/Release/llama-cli.exe" ∧
    resolveMainPath true (fun _ => false) = "build/bin/llama-cli" ∧
    resolveMainPath false (fun _ => false) = "build/bin/llama-cli" :=
  ⟨(c9_executable_resolution (fun _ => true)).1 rfl,
    (c9_executable_resolution (fun _ => false)).2.1 rfl,
    (c9_executable_resolution (fun _ => false)).2.2⟩

/-- C10: in conversation mode no tokens-per-second or ms-per-token
extraction is performed: the run reports no metrics, prints no
speed-metrics block whatever timing lines the child printed, and its
final report is the conversation summary. -/
theorem c10_no_extraction_in_conversation (inp : RunInput)
    (hc : inp.is_conversation = true) (hi : inp.interruptAt = none)
    (hr : inp.returncode = 0) :
    (runCommand inp).reportedMetrics = none ∧
    (runCommand inp).events.all (fun e => !isSpeedBlock e) = true ∧
    OutEvent.conversationSummary (runCommand inp).responseCount inp.threads
      ∈ (runCommand inp).events := by
  simp only [runCommand, hi]
  rw [if_neg (by simp [hr]), hc]
  have hst := foldl_processLine_no_speedBlock true inp.threads inp.lines
    initLoopState rfl
  refine ⟨rfl, ?_, ?_⟩
  · simp only [Bool.not_true, Bool.false_eq_true, if_false, List.all_append,
      hst, Bool.true_and]
    rfl
  · simp

/-- Witness for C10 on a conversation run whose stream carries a
parseable prompt-eval timing line. -/
theorem c10_no_extraction_in_conversation_witness :
    (runCommand c10WitnessInput).reportedMetrics = none ∧
    (runCommand c10WitnessInput).events.all (fun e => !isSpeedBlock e) = true ∧
    OutEvent.conversationSummary (runCommand c10WitnessInput).responseCount
      c10WitnessInput.threads ∈ (runCommand c10WitnessInput).events :=
  c10_no_extraction_in_conversation c10WitnessInput rfl rfl rfl

/-- C1 (counterexample): the claim quantifies over every stream
containing the sample line, but a later "prompt eval time" line
overwrites the dictionary entries, so the final report of a stream
holding the sample line followed by another prompt-eval line carries the
later line's 0.50 tokens/sec, not 12.37. -/
theorem c1_overwrite_counterexample :
    promptEvalLine ∈ c1CexInput.lines ∧
    c1CexInput.is_conversation = false ∧
    (runCommand c1CexInput).reportedMetrics =
      some { prompt_eval_speed := some (1/2), prompt_eval_ms_per_token := some 2,
             gen_speed := none, gen_ms_per_token := none } ∧
    ((1 : ℚ)/2) ≠ 1237/100 := by
  refine ⟨by decide, rfl, ?_, by norm_num⟩
  have h : (runCommand c1CexInput).reportedMetrics =
      some { prompt_eval_speed := some (DecNum.toRat ⟨false, 0, 50, 2⟩),
             prompt_eval_ms_per_token := some (DecNum.toRat ⟨false, 2, 0, 2⟩),
             gen_speed := none, gen_ms_per_token := none } := rfl
  rw [h]
  norm_num [DecNum.toRat]

/-- C1 (amended): for every non-conversation, uninterrupted, successful
run whose output stream contains the sample line
`prompt eval time = 161.62 ms / 2 tokens ( 80.81 ms per token, 12.37
tokens per second)` with no later line containing "prompt eval time",
and whose stream does not leave the generation pair partially parsed
(a generation speed recorded without its ms-per-token partner would
crash the final report with an uncaught `KeyError` at line 116), the
final report records 12.37 tokens/sec and 80.81 ms/token for prompt
evaluation, obtained by the "=" / "tokens per second" / "," and
"ms per token" / "(" splits. -/
theorem c1_prompt_extraction (inp : RunInput) (l1 l2 : List String)
    (hc : inp.is_conversation = false) (hi : inp.interruptAt = none)
    (hr : inp.returncode = 0) (hl : inp.lines = l1 ++ promptEvalLine :: l2)
    (h2 : ∀ y ∈ l2, pyContains y "prompt eval time" = false)
    (h3 : ((extractMetrics inp.lines).gen_speed.isSome
      && (extractMetrics inp.lines).gen_ms_per_token.isNone) = false) :
    (runCommand inp).reportedMetrics = some (extractMetrics inp.lines) ∧
    (extractMetrics inp.lines).prompt_eval_speed = some (1237/100) ∧
    (extractMetrics inp.lines).prompt_eval_ms_per_token = some (8081/100) := by
  have hsplit : extractMetrics inp.lines
      = l2.foldl stepMetrics (stepMetrics (l1.foldl stepMetrics {}) promptEvalLine) := by
    rw [hl]
    unfold extractMetrics
    rw [List.foldl_append]
    rfl
  have hspeed : (extractMetrics inp.lines).prompt_eval_speed
      = some (DecNum.toRat ⟨false, 12, 37, 2⟩) := by
    rw [hsplit, stepMetrics_promptEvalLine]
    rw [(foldl_stepMetrics_preserves_prompt l2 h2 _).1]
  have hms : (extractMetrics inp.lines).prompt_eval_ms_per_token
      = some (DecNum.toRat ⟨false, 80, 81, 2⟩) := by
    rw [hsplit, stepMetrics_promptEvalLine]
    rw [(foldl_stepMetrics_preserves_prompt l2 h2 _).2]
  have hcrash : reportKeyError (extractMetrics inp.lines) = false := by
    unfold reportKeyError
    rw [hms, h3]
    simp
  have holines : (inp.lines.foldl (processLine false inp.threads)
      initLoopState).output_lines = inp.lines := by
    rw [foldl_processLine_output_lines]
    rfl
  have hrep : (runCommand inp).reportedMetrics
      = some (extractMetrics inp.lines) := by
    simp only [runCommand, hi]
    rw [if_neg (by simp [hr]), hc, holines, hcrash]
    rfl
  refine ⟨hrep, ?_, ?_⟩
  · rw [hspeed, sampleDecValues.1]
  · rw [hms, sampleDecValues.2.1]

/-- Witness for the amended C1 on a stream holding exactly the sample
line (whose generation pair is untouched, so the report cannot hit the
`KeyError`). -/
theorem c1_prompt_extraction_witness :
    (runCommand c1WitnessInput).reportedMetrics
      = some (extractMetrics c1WitnessInput.lines) ∧
    (extractMetrics c1WitnessInput.lines).prompt_eval_speed = some (1237/100) ∧
    (extractMetrics c1WitnessInput.lines).prompt_eval_ms_per_token
      = some (8081/100) :=
  c1_prompt_extraction c1WitnessInput [] [] rfl rfl rfl rfl (by simp) (by decide)

/-- C2: the sample generation-eval line (containing "eval time" but not
"prompt eval") yields generation speed 8.89 tokens/sec and 112.47
ms/token whatever the dictionary held before — so independently of the
prompt-eval metrics, which the update leaves untouched — and a line
containing "prompt eval" is never treated as a generation-eval line. -/
theorem c2_gen_eval_extraction :
    (∀ m : PerfMetrics, stepMetrics m genEvalLine =
      { m with gen_speed := some (889/100),
               gen_ms_per_token := some (11247/100) }) ∧
    (∀ (m : PerfMetrics) (line : String),
      pyContains line "prompt eval" = true →
      (stepMetrics m line).gen_speed = m.gen_speed ∧
      (stepMetrics m line).gen_ms_per_token = m.gen_ms_per_token) := by
  constructor
  · intro m
    rw [stepMetrics_genEvalLine m, sampleDecValues.2.2.1, sampleDecValues.2.2.2]
  · exact stepMetrics_preserves_gen

/-- Witness for C2 on the empty dictionary and on the prompt-eval
sample line. -/
theorem c2_gen_eval_extraction_witness :
    stepMetrics {} genEvalLine =
      { gen_speed := some (889/100), gen_ms_per_token := some (11247/100) } ∧
    (stepMetrics {} promptEvalLine).gen_speed = none :=
  ⟨c2_gen_eval_extraction.1 {},
    (c2_gen_eval_extraction.2 {} promptEvalLine (by decide)).1⟩

/-- C6 (supporting theorem for the code bug): on a successful child run
(exit code 0) whose stream holds a line whose tokens-per-second fragment
parses but whose ms-per-token fragment does not, the `try` block leaves
the dictionary with the generation speed set and its ms-per-token
partner absent, and the report of lines 113-116 — which guards each
printed pair only by its first key yet reads both — dies on an uncaught
`KeyError`: the utility exits with status 1 and prints a traceback
instead of the speed-metrics block, despite the child's exit code 0,
contradicting the claim's "does not crash and does not change the
process exit status". -/
theorem c6_partial_parse_keyerror :
    c6CrashInput.returncode = 0 ∧
    (extractMetrics c6CrashInput.lines).gen_speed = some 2 ∧
    (extractMetrics c6CrashInput.lines).gen_ms_per_token = none ∧
    (runCommand c6CrashInput).exitCode = 1 ∧
    OutEvent.keyErrorTraceback ∈ (runCommand c6CrashInput).events ∧
    (runCommand c6CrashInput).reportedMetrics = none := by
  refine ⟨rfl, ?_, rfl, rfl, by decide, rfl⟩
  have h : (extractMetrics c6CrashInput.lines).gen_speed
      = some (DecNum.toRat ⟨false, 2, 0, 1⟩) := rfl
  rw [h]
  norm_num [DecNum.toRat]

/-- C7: the conversation turn tracker is a two-state machine starting in
Idle (`in_assistant_response = false`): a line whose stripped text
starts with "> " moves Idle to InAssistantResponse; a subsequent
non-empty line starting with neither "> " nor "System:" moves back to
Idle, incrementing the response counter by exactly 1 and printing
exactly one per-response block; hence a stream with two start/end pairs
ends with counter 2 and two per-response blocks printed. -/
theorem c7_conversation_turns :
    initLoopState.in_assistant_response = false ∧
    (∀ (t : Int) (st : LoopState) (line : String),
      st.in_assistant_response = false →
      pyStartsWith (pyStrip line) "> " = true →
      (processLine true t st line).in_assistant_response = true ∧
      (processLine true t st line).response_count = st.response_count ∧
      countBlocks (processLine true t st line).events = countBlocks st.events) ∧
    (∀ (t : Int) (st : LoopState) (line : String),
      st.in_assistant_response = true →
      pyStrip line ≠ "" →
      pyStartsWith (pyStrip line) "> " = false →
      pyStartsWith (pyStrip line) "System:" = false →
      (processLine true t st line).in_assistant_response = false ∧
      (processLine true t st line).response_count = st.response_count + 1 ∧
      countBlocks (processLine true t st line).events
        = countBlocks st.events + 1) ∧
    (∀ (inp : RunInput) (s1 e1 s2 e2 : String),
      inp.is_conversation = true → inp.interruptAt = none →
      inp.returncode = 0 → inp.lines = [s1, e1, s2, e2] →
      pyStartsWith (pyStrip s1) "> " = true →
      pyStartsWith (pyStrip s2) "> " = true →
      pyStrip e1 ≠ "" → pyStartsWith (pyStrip e1) "> " = false →
      pyStartsWith (pyStrip e1) "System:" = false →
      pyStrip e2 ≠ "" → pyStartsWith (pyStrip e2) "> " = false →
      pyStartsWith (pyStrip e2) "System:" = false →
      (runCommand inp).responseCount = 2 ∧
      countBlocks (runCommand inp).events = 2) := by
  refine ⟨rfl, ?_, ?_, ?_⟩
  · intro t st line h1 h2
    obtain ⟨ha, hb, hc'⟩ := processLine_conv_start t st line h1 h2
    refine ⟨ha, hb, ?_⟩
    rw [hc', countBlocks_append, countBlocks_echo]
    omega
  · intro t st line h1 h2 h3 h4
    obtain ⟨ha, hb, hc'⟩ := processLine_conv_end t st line h1 h2 h3 h4
    refine ⟨ha, hb, ?_⟩
    rw [hc', countBlocks_append, countBlocks_append, countBlocks_echo,
      countBlocks_respBlock]
  · intro inp s1 e1 s2 e2 hc hi hr hl hs1 hs2 he1a he1b he1c he2a he2b he2c
    obtain ⟨a1, b1, c1⟩ :=
      processLine_conv_start inp.threads initLoopState s1 rfl hs1
    obtain ⟨a2, b2, c2⟩ :=
      processLine_conv_end inp.threads _ e1 a1 he1a he1b he1c
    obtain ⟨a3, b3, c3⟩ := processLine_conv_start inp.threads _ s2 a2 hs2
    obtain ⟨a4, b4, c4⟩ :=
      processLine_conv_end inp.threads _ e2 a3 he2a he2b he2c
    simp only [runCommand, hi]
    rw [if_neg (by simp [hr]), hc, hl]
    rw [if_neg (by decide : ¬((!true) = true))]
    simp only [List.foldl_cons, List.foldl_nil]
    refine ⟨?_, ?_⟩
    · dsimp only
      rw [b4, b3, b2, b1]
      rfl
    · dsimp only
      rw [countBlocks_append, countBlocks_convSummary, c4, c3, c2, c1]
      simp only [countBlocks_append, countBlocks_echo, countBlocks_respBlock,
        countBlocks_init]

/-- Witness for C7 on a concrete two-turn conversation stream. -/
theorem c7_conversation_turns_witness :
    (runCommand c7WitnessInput).responseCount = 2 ∧
    countBlocks (runCommand c7WitnessInput).events = 2 :=
  c7_conversation_turns.2.2.2 c7WitnessInput "> hi" "ok" "> again" "done"
    rfl rfl rfl rfl (by decide) (by decide) (by decide) (by decide)
    (by decide) (by decide) (by decide) (by decide)

/-- C8 (counterexample): the empty prompt string is not rejected —
argparse accepts `-p ""` and the child command is built with the empty
prompt in place. -/
theorem c8_empty_prompt_counterexample :
    parseArgs ["-p", ""] = Except.ok { prompt := some "" } ∧
    mainCommand false (fun _ => true) ["-p", ""] =
      Except.ok ["build/bin/llama-cli", "-m",
        "models/bitnet_b1_58-3B/ggml-model-i2_s.gguf", "-n", "128", "-t", "2",
        "-p", "", "-ngl", "0", "-c", "2048", "--temp", "0.8"] :=
  ⟨rfl, rfl⟩

/-- C8 (amended): the prompt option is required — an invocation without
it fails in the parser, before any child command is built — while an
empty prompt string is accepted, and numeric parameters undergo only
type conversion with no range validation (negative or zero values are
accepted). -/
theorem c8_prompt_required :
    (∀ (argv : List String) (a : ParsedArgs),
      "-p" ∉ argv → "--prompt" ∉ argv → parseArgs argv ≠ Except.ok a) ∧
    parseArgs ["-p", ""] = Except.ok { prompt := some "" } ∧
    parseArgs ["-p", "x", "-t", "-5", "-c", "0", "-n", "-7"]
      = Except.ok { prompt := some "x", threads := -5, ctx_size := 0,
                    n_predict := -7 } := by
  refine ⟨?_, rfl, rfl⟩
  intro argv a h1 h2 hok
  unfold parseArgs at hok
  cases hgo : parseArgsGo none {} argv with
  | error e =>
    simp only [hgo] at hok
    cases hok
  | ok a1 =>
    simp only [hgo] at hok
    have hpr := parseArgsGo_prompt_invariant argv none {} a1 (by simp) h1 h2 hgo
    rw [show ({} : ParsedArgs).prompt = none from rfl] at hpr
    simp only [hpr] at hok
    cases hok

/-- Witness for the amended C8: an invocation that only names a model is
rejected. -/
theorem c8_prompt_required_witness :
    parseArgs ["-m", "m.gguf"] ≠ Except.ok { model := "m.gguf" } :=
  c8_prompt_required.1 ["-m", "m.gguf"] { model := "m.gguf" }
    (by decide) (by decide)

end BitNetRun
